import Mathlib

/-
Verification development for deepchem/feat/molecule_featurizers/mol_graph_conv_featurizer.py.

The molecule object is external (RDKit); it is embedded as an immutable record of the
observations the featurizer queries (atoms, bonds, per-atom and per-bond properties),
plus one mutable annotation bit (whether Gasteiger partial charges have been computed
onto the molecule), which the featurizer may flip as a side effect.

Feature entries are numeric payloads; they are embedded as `Int` (the claims under
study concern shapes, positions and duplication of entries, never float rounding).
-/

namespace DC

/-- Python-level runtime errors relevant to this file: NameError (a referenced name is
unbound at call time), TypeError (wrong call arity), AttributeError (method call on
None), ImportError (raised at line 187 when the charge module cannot be imported). -/
inductive PyErr where
  | nameError
  | typeError
  | attributeError
  | importError
  deriving DecidableEq

/-- An RDKit atom, embedded as the record of the observations the featurizer makes of
it: GetIdx, GetSymbol, GetFormalCharge, GetHybridization, hydrogen-bond donor/acceptor
role (from the molecule-level substructure match), GetIsAromatic, GetTotalDegree,
GetTotalNumHs, chirality tag, and the Gasteiger charge value RDKit's deterministic
computation would annotate. -/
structure Atom where
  idx : Nat
  symbol : String
  formalCharge : Int
  hybridization : String
  isDonor : Bool
  isAcceptor : Bool
  isAromatic : Bool
  totalDegree : Nat
  totalNumHs : Nat
  chirality : String
  gasteigerCharge : Int
  deriving DecidableEq

/-- An RDKit bond, embedded as the record of the observations made of it:
GetBeginAtomIdx, GetEndAtomIdx, GetBondType, IsInRing, GetIsConjugated, GetStereo. -/
structure Bond where
  beginAtomIdx : Nat
  endAtomIdx : Nat
  bondType : String
  isInRing : Bool
  isConjugated : Bool
  stereo : String
  deriving DecidableEq

/-- An RDKit molecule: ordered atoms and bonds, plus the mutable annotation bit that
records whether the `_GasteigerCharge` property is present on its atoms. -/
structure Mol where
  atoms : List Atom
  bonds : List Bond
  gasteigerAnnotated : Bool
  deriving DecidableEq

/-- The import environment: whether `from rdkit.Chem import AllChem` succeeds
(line 184). -/
structure Env where
  allChemAvailable : Bool
  deriving DecidableEq

/-- Observable events of one `_featurize` call: the whole-molecule Gasteiger charge
computation (line 185) and the encoding of atom `i` (the loop at lines 191-198). -/
inductive FeatEvent where
  | computeGasteiger
  | encodeAtom (i : Nat)
  deriving DecidableEq

/-- Modelled from the spec: the categorical one-hot encoders of
deepchem.utils.molecule_feature_utils (not under src/) are ordered-vocabulary
encoders with an optional trailing catch-all "unknown" slot (spec section 9:
"an ordered vocabulary list with an explicit trailing other slot"). -/
def one_hot_encode {α : Type} [DecidableEq α] (x : α) (allowable : List α)
    (includeUnknown : Bool) : List Int :=
  (allowable.map (fun s => if x = s then (1 : Int) else 0)) ++
    (if includeUnknown then [if x ∈ allowable then (0 : Int) else 1] else [])

/-- Modelled from the spec: atom type one-hot over "C","N","O","F","P","S","Cl","Br","I"
plus an "other atoms" slot (docstring lines 100, spec 4.1); width 10. -/
def get_atom_type_one_hot (a : Atom) : List Int :=
  one_hot_encode a.symbol ["C", "N", "O", "F", "P", "S", "Cl", "Br", "I"] true

/-- Modelled from the spec: formal charge as a one-entry scalar block (spec 4.1). -/
def get_atom_formal_charge (a : Atom) : List Int :=
  [a.formalCharge]

/-- Modelled from the spec: hybridization one-hot over sp/sp2/sp3 (spec 4.1); width 3. -/
def get_atom_hybridization_one_hot (a : Atom) : List Int :=
  one_hot_encode a.hybridization ["SP", "SP2", "SP3"] false

/-- Modelled from the spec: hydrogen-bond donor/acceptor flags looked up from the
precomputed per-atom role list by this atom's index (spec 4.1); width 2. -/
def get_atom_hydrogen_bonding_one_hot (a : Atom) (h_bond_infos : List (Nat × String)) :
    List Int :=
  [if (a.idx, "Donor") ∈ h_bond_infos then (1 : Int) else 0,
   if (a.idx, "Acceptor") ∈ h_bond_infos then (1 : Int) else 0]

/-- Modelled from the spec: aromaticity flag (spec 4.1); width 1. -/
def get_atom_is_in_aromatic_one_hot (a : Atom) : List Int :=
  [if a.isAromatic then (1 : Int) else 0]

/-- Modelled from the spec: total-degree one-hot over buckets 0-5 with an "other"
slot for out-of-range (spec 4.1); width 7. -/
def get_atom_total_degree_one_hot (a : Atom) : List Int :=
  one_hot_encode a.totalDegree [0, 1, 2, 3, 4, 5] true

/-- Modelled from the spec: attached-hydrogen-count one-hot over buckets 0-4 with a
catch-all slot; width 6 (the widths sum to the documented default total of 30). -/
def get_atom_total_num_Hs_one_hot (a : Atom) : List Int :=
  one_hot_encode a.totalNumHs [0, 1, 2, 3, 4] true

/-- Modelled from the spec: chirality one-hot over "R"/"S" (docstring line 107);
width 2. -/
def get_atom_chirality_one_hot (a : Atom) : List Int :=
  one_hot_encode a.chirality ["R", "S"] false

/-- Modelled from the spec: the annotated Gasteiger partial charge as a one-entry
scalar block (spec 4.1). -/
def get_atom_partial_charge (a : Atom) : List Int :=
  [a.gasteigerCharge]

/-- Modelled from the spec: bond-order one-hot over single/double/triple/aromatic
(docstring line 113); width 4. -/
def get_bond_type_one_hot (b : Bond) : List Int :=
  one_hot_encode b.bondType ["SINGLE", "DOUBLE", "TRIPLE", "AROMATIC"] false

/-- Modelled from the spec: same-ring membership flag (docstring line 114); width 1. -/
def get_bond_is_in_same_ring_one_hot (b : Bond) : List Int :=
  [if b.isInRing then (1 : Int) else 0]

/-- Modelled from the spec: conjugation flag (docstring line 115); width 1. -/
def get_bond_is_conjugated_one_hot (b : Bond) : List Int :=
  [if b.isConjugated then (1 : Int) else 0]

/-- Modelled from the spec: stereo-configuration one-hot over a fixed vocabulary with
a catch-all slot (docstring line 116); width 5, so the bond width totals 11. -/
def get_bond_stereo_one_hot (b : Bond) : List Int :=
  one_hot_encode b.stereo ["STEREONONE", "STEREOANY", "STEREOZ", "STEREOE"] true

/-- Modelled from the spec: construct_hydrogen_bonding_info (deepchem utils, not under
src/) returns the list of (atom_index, "Donor"/"Acceptor") pairs found by the
molecule-level substructure match (source docstring lines 32-36). -/
def construct_hydrogen_bonding_info (atoms : List Atom) : List (Nat × String) :=
  atoms.foldr
    (fun a acc =>
      (if a.isDonor then [(a.idx, "Donor")] else []) ++
        (if a.isAcceptor then [(a.idx, "Acceptor")] else []) ++ acc)
    []

/-- _construct_atom_feature (source lines 23-66): concatenate type, formal charge,
hybridization, H-bonding, aromaticity, degree and H-count blocks, then append the
chirality block when use_chirality and the partial-charge scalar when
use_partial_charge. -/
def construct_atom_feature (atom : Atom) (h_bond_infos : List (Nat × String))
    (use_chirality : Bool) (use_pcharge : Bool) : List Int :=
  let atom_feat :=
    get_atom_type_one_hot atom ++ get_atom_formal_charge atom ++
      get_atom_hybridization_one_hot atom ++
      get_atom_hydrogen_bonding_one_hot atom h_bond_infos ++
      get_atom_is_in_aromatic_one_hot atom ++ get_atom_total_degree_one_hot atom ++
      get_atom_total_num_Hs_one_hot atom
  let atom_feat2 :=
    if use_chirality then atom_feat ++ get_atom_chirality_one_hot atom else atom_feat
  if use_pcharge then atom_feat2 ++ get_atom_partial_charge atom else atom_feat2

/-- _construct_bond_feature (source lines 69-86): concatenate bond type, same-ring,
conjugation and stereo blocks. -/
def construct_bond_feature (bond : Bond) : List Int :=
  get_bond_type_one_hot bond ++ get_bond_is_in_same_ring_one_hot bond ++
    get_bond_is_conjugated_one_hot bond ++ get_bond_stereo_one_hot bond

/-- The `src` list built by the bond loop (source lines 201-206): for each bond in
iteration order, append begin index then end index. -/
def edge_src : List Bond → List Nat
  | [] => []
  | b :: bs => b.beginAtomIdx :: b.endAtomIdx :: edge_src bs

/-- The `dest` list built by the bond loop (source lines 201-206): for each bond in
iteration order, append end index then begin index. -/
def edge_dest : List Bond → List Nat
  | [] => []
  | b :: bs => b.endAtomIdx :: b.beginAtomIdx :: edge_dest bs

/-- The `features` list built by the edge-feature loop (source lines 211-213):
`features += 2 * [_construct_bond_feature(bond)]` appends the bond's feature vector
twice per bond, in bond iteration order. -/
def edge_feature_list : List Bond → List (List Int)
  | [] => []
  | b :: bs => construct_bond_feature b :: construct_bond_feature b :: edge_feature_list bs

/-- GraphData (deepchem.feat.graph_data): node-feature matrix, 2-row edge-index
matrix `[src, dest]`, optional edge-feature matrix. -/
structure GraphData where
  node_features : List (List Int)
  edge_index : List (List Nat)
  edge_features : Option (List (List Int))
  deriving DecidableEq

/-- The pure assembly of the returned GraphData (source lines 189-219), a function of
the atom and bond lists only: node rows in atom iteration order, edge index
`[src, dest]`, edge features only when use_edges. -/
def buildGraph (use_edges use_chirality use_pcharge : Bool) (atoms : List Atom)
    (bonds : List Bond) : GraphData :=
  let h_bond_infos := construct_hydrogen_bonding_info atoms
  { node_features :=
      atoms.map (fun atom => construct_atom_feature atom h_bond_infos use_chirality use_pcharge)
    edge_index := [edge_src bonds, edge_dest bonds]
    edge_features := if use_edges then some (edge_feature_list bonds) else none }

/-- MolGraphConvFeaturizer configuration (source lines 143-163). -/
structure MolGraphConvFeaturizer where
  use_edges : Bool
  use_chirality : Bool
  use_partial_charge : Bool
  deriving DecidableEq

/-- The partial-charge precomputation step (source lines 178-187): when
use_partial_charge, probe `mol.GetAtomWithIdx(0).GetProp('_GasteigerCharge')` — it
succeeds exactly when the molecule has at least one atom and is annotated; on failure
compute Gasteiger charges for the whole molecule (annotating it) if AllChem imports,
else raise ImportError. -/
def chargeStep (self : MolGraphConvFeaturizer) (env : Env) (mol : Mol) :
    Except PyErr (Mol × List FeatEvent) :=
  if self.use_partial_charge then
    if !mol.atoms.isEmpty && mol.gasteigerAnnotated then Except.ok (mol, [])
    else if env.allChemAvailable then
      Except.ok ({ mol with gasteigerAnnotated := true }, [FeatEvent.computeGasteiger])
    else Except.error PyErr.importError
  else Except.ok (mol, [])

/-- MolGraphConvFeaturizer._featurize (source lines 165-219): run the partial-charge
step, then build the graph from the (possibly annotated) molecule. The result also
carries the post-call molecule state and the event trace (charge events first, then
one encode event per atom in index order, matching the source's statement order). -/
def MolGraphConvFeaturizer.featurize (self : MolGraphConvFeaturizer) (env : Env)
    (mol : Mol) : Except PyErr (GraphData × Mol × List FeatEvent) :=
  match chargeStep self env mol with
  | Except.error e => Except.error e
  | Except.ok (mol2, tr) =>
    Except.ok
      (buildGraph self.use_edges self.use_chirality self.use_partial_charge mol2.atoms mol2.bonds,
        mol2,
        tr ++ (List.range mol2.atoms.length).map FeatEvent.encodeAtom)

/-- PAGTNFeaturizer configuration state (source lines 229-256). The SYMBOLS and
RING_TYPES vocabularies and the bond featurizer are set to fixed values by __init__,
so they are embedded as constants; max_length is the only per-instance field. -/
structure PAGTNFeaturizer where
  max_length : Nat
  deriving DecidableEq

/-- PAGTNFeaturizer.__init__ (source lines 229-256). Line 256 assigns the literal 5
to self.max_length, ignoring the constructor parameter. -/
def PAGTNFeaturizer.init (max_length : Nat) : PAGTNFeaturizer :=
  { max_length := 5 }

/-- self.RING_TYPES (source line 252): the fixed (ring size, aromatic) categories. -/
def RING_TYPES : List (Nat × Bool) :=
  [(5, false), (5, true), (6, false), (6, true)]

/-- self.ordered_pair (source line 253). -/
def ordered_pair (a b : Nat) : Nat × Nat :=
  if a < b then (a, b) else (b, a)

/-- Modelled from the spec: dgllife's one_hot_encoding with encode_unknown left at its
default compares x against each allowable value in order ("one-hot over a fixed small
set of (ring-size, aromatic) categories", spec 4.4). -/
def dgl_one_hot_encoding {α : Type} [DecidableEq α] (x : α) (allowable : List α) :
    List Int :=
  allowable.map (fun s => if x = s then (1 : Int) else 0)

/-- Modelled from the spec: self.bond_featurizer (source lines 254-255), dgllife's
ConcatFeaturizer of bond_type_one_hot (single/double/triple/aromatic),
bond_is_conjugated and bond_is_in_ring; width 6, matching the six-zero pad of source
line 296. -/
def pagtn_bond_featurizer (b : Bond) : List Int :=
  dgl_one_hot_encoding b.bondType ["SINGLE", "DOUBLE", "TRIPLE", "AROMATIC"] ++
    [if b.isConjugated then (1 : Int) else 0] ++ [if b.isInRing then (1 : Int) else 0]

/-- mol.GetBondBetweenAtoms(u, v) (source lines 285-286): the bond joining u and v in
either orientation, if any. -/
def getBondBetween (mol : Mol) (u v : Nat) : Option Bond :=
  mol.bonds.find? (fun b =>
    (b.beginAtomIdx == u && b.endAtomIdx == v) || (b.beginAtomIdx == v && b.endAtomIdx == u))

/-- The path_bonds list (source lines 282-290): one GetBondBetweenAtoms lookup per
consecutive pair of path atoms (a missing bond only warns and appends None). -/
def pathBonds (mol : Mol) (path_atoms : List Nat) : List (Option Bond) :=
  (List.range (path_atoms.length - 1)).map
    (fun k => getBondBetween mol (path_atoms.getD k 0) (path_atoms.getD (k + 1) 0))

/-- The per-path-slot block loop (source lines 292-296) over a given list of slot
indices: a slot below len(path_bonds) encodes that bond (calling the featurizer on a
None bond raises), any later slot contributes six zeros. -/
def pathBlocksFrom (pbs : List (Option Bond)) : List Nat → Except PyErr (List Int)
  | [] => Except.ok []
  | i :: rest =>
    match pbs[i]? with
    | some (some b) =>
      match pathBlocksFrom pbs rest with
      | Except.ok tail => Except.ok (pagtn_bond_featurizer b ++ tail)
      | Except.error e => Except.error e
    | some none => Except.error PyErr.attributeError
    | none =>
      match pathBlocksFrom pbs rest with
      | Except.ok tail => Except.ok (List.replicate 6 0 ++ tail)
      | Except.error e => Except.error e

/-- The path-slot blocks for slots 0 .. max_length-1 (source line 292). -/
def pathBlocks (max_len : Nat) (pbs : List (Option Bond)) : Except PyErr (List Int) :=
  pathBlocksFrom pbs (List.range max_len)

/-- A vector of length `len` with a single 1 at slot `i`. -/
def one_hot_at (len i : Nat) : List Int :=
  (List.range len).map (fun j => if j = i then (1 : Int) else 0)

/-- The path-length position indicator (source lines 298-301): clamp
path_length = len(path_atoms) to max_length + 1 whenever path_length + 1 > max_length,
then set that slot of a zero vector of length max_length + 2. -/
def position_feature (max_len n : Nat) : List Int :=
  one_hot_at (max_len + 2) (if n + 1 > max_len then max_len + 1 else n)

/-- The ring-co-membership block (source lines 303-313) under the intended binding of
`one_hot_encoding` (dgllife semantics): a nonempty ring_info yields a leading 1 and a
column-wise any of the per-ring one-hots; an empty ring_info yields a leading 0
followed by one_hot_encoding([], RING_TYPES), which compares the empty list against
each tuple and so is all zeros. -/
def ring_block (ringTypes : List (Nat × Bool)) (ring_info : List (Nat × Bool)) :
    List Int :=
  if ring_info.isEmpty then
    0 :: ringTypes.map (fun _ => (0 : Int))
  else
    1 :: ringTypes.map (fun t => if ring_info.any (fun r => r == t) then (1 : Int) else 0)

/-- bond_features (source lines 270-313) under the intended binding of
`one_hot_encoding` (the source's reference to it is unbound at method scope; the
execution model below records that): path-slot blocks, then the position indicator,
then the ring block. -/
def bond_features_val (F : PAGTNFeaturizer) (mol : Mol) (path_atoms : List Nat)
    (ring_info : List (Nat × Bool)) : Except PyErr (List Int) :=
  match pathBlocks F.max_length (pathBonds mol path_atoms) with
  | Except.error e => Except.error e
  | Except.ok blocks =>
    Except.ok (blocks ++ position_feature F.max_length path_atoms.length ++
      ring_block RING_TYPES ring_info)

/-- Execution model of bond_features as written (source lines 270-313): the path-bond
loop and the position indicator are computed first; then both branches of the ring
block reference `one_hot_encoding`, a name imported only inside __init__ and hence
unbound at method scope, so NameError is raised before the vector is assembled. -/
def bond_features_run (F : PAGTNFeaturizer) (mol : Mol) (path_atoms : List Nat)
    (ring_info : List (Nat × Bool)) : Except PyErr (List Int) :=
  match pathBlocks F.max_length (pathBonds mol path_atoms) with
  | Except.error e => Except.error e
  | Except.ok _blocks =>
    let _pos := position_feature F.max_length path_atoms.length
    Except.error PyErr.nameError

/-- Association lookup in a Python dict embedded as a key/value list. -/
def lookupPair {β : Type} (dict : List ((Nat × Nat) × β)) (key : Nat × Nat) : Option β :=
  (dict.find? (fun kv => kv.1 == key)).map (fun kv => kv.2)

/-- The loop body of PAGTNBondFeaturizer for one ordered pair (source lines 342-346),
given the shortest-path and ring dictionaries: a pair absent from paths_dict gets
np.zeros(7 * max_length + 7); otherwise bond_features on its path and ring info
(defaulting to the empty list). -/
def pagtn_pair_feature (F : PAGTNFeaturizer) (mol : Mol)
    (paths_dict : List ((Nat × Nat) × List Nat))
    (rings_dict : List ((Nat × Nat) × List (Nat × Bool))) (i j : Nat) :
    Except PyErr (List Int) :=
  match lookupPair paths_dict (i, j) with
  | none => Except.ok (List.replicate (7 * F.max_length + 7) 0)
  | some path =>
    bond_features_val F mol path ((lookupPair rings_dict (ordered_pair i j)).getD [])

/-- Execution model of PAGTNBondFeaturizer as written (source lines 315-348): after
reading the atom count, line 330 evaluates `utils.compute_all_pairs_shortest_path`,
but the name `utils` is bound neither at module nor at method scope, so NameError is
raised before any pair is featurized. -/
def PAGTNBondFeaturizer_run (F : PAGTNFeaturizer) (mol : Mol) :
    Except PyErr (List (List Nat) × List (List Int)) :=
  let _n_atoms := mol.atoms.length
  Except.error PyErr.nameError

/-- Number of declared parameters of PAGTNAtomFeaturizer (source line 258): it is
declared as `def PAGTNAtomFeaturizer(atom)`, with no self parameter. -/
def PAGTNAtomFeaturizer_params : Nat := 1

/-- A Python bound-method call: when the supplied argument count does not match the
declared parameter count, TypeError is raised before the body runs. -/
def boundMethodCall {β : Type} (declaredParams suppliedArgs : Nat)
    (body : Except PyErr β) : Except PyErr β :=
  if declaredParams = suppliedArgs then body else Except.error PyErr.typeError

/-- Execution model of the call self.PAGTNAtomFeaturizer(mol) (source line 351): the
bound call supplies two arguments (self and mol) to the one-parameter function of
line 258, raising TypeError; had the body run, its references to `self`,
`atom_explicit_valence_one_hot` and `get_atom_implicit_valence_one_hot` are unbound
at call time and would raise NameError. -/
def PAGTNAtomFeaturizer_call (F : PAGTNFeaturizer) (mol : Mol) :
    Except PyErr (List Int) :=
  boundMethodCall PAGTNAtomFeaturizer_params 2 (Except.error PyErr.nameError)

/-- PAGTNFeaturizer._featurize (source lines 350-354): node features from
PAGTNAtomFeaturizer, edge index and features from PAGTNBondFeaturizer, packed into a
GraphData. -/
def pagtn_featurize (F : PAGTNFeaturizer) (mol : Mol) : Except PyErr GraphData :=
  match PAGTNAtomFeaturizer_call F mol with
  | Except.error e => Except.error e
  | Except.ok nf =>
    match PAGTNBondFeaturizer_run F mol with
    | Except.error e => Except.error e
    | Except.ok (ei, ef) =>
      Except.ok { node_features := [nf], edge_index := ei, edge_features := some ef }

/-- A plain sp3 carbon atom at index `i` (concrete test input). -/
def atomC (i : Nat) : Atom :=
  { idx := i, symbol := "C", formalCharge := 0, hybridization := "SP3", isDonor := false,
    isAcceptor := false, isAromatic := false, totalDegree := 2, totalNumHs := 2,
    chirality := "", gasteigerCharge := 0 }

/-- A plain single bond between atoms `u` and `v` (concrete test input). -/
def bondS (u v : Nat) : Bond :=
  { beginAtomIdx := u, endAtomIdx := v, bondType := "SINGLE", isInRing := false,
    isConjugated := false, stereo := "STEREONONE" }

/-- A two-carbon molecule with one bond, charges not annotated. -/
def mol0 : Mol :=
  { atoms := [atomC 0, atomC 1], bonds := [bondS 0 1], gasteigerAnnotated := false }

/-- A three-carbon molecule with a single bond 0-1, so atom 2 is a disconnected
fragment. -/
def molDisc : Mol :=
  { atoms := [atomC 0, atomC 1, atomC 2], bonds := [bondS 0 1], gasteigerAnnotated := false }

/-- A five-carbon chain 0-1-2-3-4. -/
def mol5 : Mol :=
  { atoms := [atomC 0, atomC 1, atomC 2, atomC 3, atomC 4],
    bonds := [bondS 0 1, bondS 1 2, bondS 2 3, bondS 3 4], gasteigerAnnotated := false }

/-- Environment in which rdkit.Chem.AllChem imports. -/
def env0 : Env := { allChemAvailable := true }

/-- Environment in which the charge module is unavailable. -/
def envNoChem : Env := { allChemAvailable := false }

/-- A MolGraphConvFeaturizer configured with use_edges. -/
def S_edges : MolGraphConvFeaturizer :=
  { use_edges := true, use_chirality := false, use_partial_charge := false }

/-- A MolGraphConvFeaturizer configured with use_partial_charge. -/
def S_pc : MolGraphConvFeaturizer :=
  { use_edges := false, use_chirality := false, use_partial_charge := true }

/-- The path-aware featurizer constructed with the default argument. -/
def F5 : PAGTNFeaturizer := PAGTNFeaturizer.init 5

/-- Modelled from the spec: the shortest-path dictionary
(utils.compute_all_pairs_shortest_path, repository code not under src/) holds an
entry for each ordered pair of distinct atoms joined by a path, and no entry for
self-pairs or pairs in different fragments. For molDisc that is the bonded pair 0-1
in both orders. -/
def pathsDisc : List ((Nat × Nat) × List Nat) :=
  [((0, 1), [0, 1]), ((1, 0), [1, 0])]

/-- Modelled from the spec: the ring dictionary (utils.compute_pairwise_ring_info,
repository code not under src/) holds entries only for pairs sharing a ring; molDisc
has no rings. -/
def ringsDisc : List ((Nat × Nat) × List (Nat × Bool)) := []

/-- The value bond_features would assemble for the single-bond path [0, 1] of mol0
with max_length 5 and no shared ring: one SINGLE-bond block, four zero pads, the
position indicator at slot 2, and the all-false ring block. -/
def v0 : List Int :=
  [1, 0, 0, 0, 0, 0,
   0, 0, 0, 0, 0, 0, 0, 0, 0, 0, 0, 0, 0, 0, 0, 0, 0, 0, 0, 0, 0, 0, 0, 0,
   0, 0, 1, 0, 0, 0, 0,
   0, 0, 0, 0, 0]

/-- Number of whole-molecule Gasteiger charge computations recorded in a trace. -/
def countGasteiger : List FeatEvent → Nat
  | [] => 0
  | FeatEvent.computeGasteiger :: rest => 1 + countGasteiger rest
  | FeatEvent.encodeAtom _ :: rest => countGasteiger rest

theorem one_hot_encode_length {α : Type} [DecidableEq α] (x : α) (allowable : List α)
    (includeUnknown : Bool) :
    (one_hot_encode x allowable includeUnknown).length =
      allowable.length + (if includeUnknown then 1 else 0) := by
  cases includeUnknown <;> simp [one_hot_encode]

theorem construct_atom_feature_length (a : Atom) (infos : List (Nat × String))
    (c p : Bool) :
    (construct_atom_feature a infos c p).length =
      30 + (if c then 2 else 0) + (if p then 1 else 0) := by
  cases c <;> cases p <;>
    simp [construct_atom_feature, get_atom_type_one_hot, get_atom_formal_charge,
      get_atom_hybridization_one_hot, get_atom_hydrogen_bonding_one_hot,
      get_atom_is_in_aromatic_one_hot, get_atom_total_degree_one_hot,
      get_atom_total_num_Hs_one_hot, get_atom_chirality_one_hot,
      get_atom_partial_charge, one_hot_encode]

theorem chargeStep_preserves (self : MolGraphConvFeaturizer) (env : Env) (mol mol2 : Mol)
    (tr : List FeatEvent) (h : chargeStep self env mol = Except.ok (mol2, tr)) :
    mol2.atoms = mol.atoms ∧ mol2.bonds = mol.bonds := by
  unfold chargeStep at h
  split at h
  · split at h
    · simp only [Except.ok.injEq, Prod.mk.injEq] at h
      obtain ⟨h1, h2⟩ := h
      subst h1
      exact ⟨rfl, rfl⟩
    · split at h
      · simp only [Except.ok.injEq, Prod.mk.injEq] at h
        obtain ⟨h1, h2⟩ := h
        subst h1
        exact ⟨rfl, rfl⟩
      · simp at h
  · simp only [Except.ok.injEq, Prod.mk.injEq] at h
    obtain ⟨h1, h2⟩ := h
    subst h1
    exact ⟨rfl, rfl⟩

theorem featurize_ok_parts (self : MolGraphConvFeaturizer) (env : Env) (mol : Mol)
    (g : GraphData) (mol2 : Mol) (tr : List FeatEvent)
    (h : MolGraphConvFeaturizer.featurize self env mol = Except.ok (g, mol2, tr)) :
    ∃ tr2, chargeStep self env mol = Except.ok (mol2, tr2) ∧
      g = buildGraph self.use_edges self.use_chirality self.use_partial_charge
        mol2.atoms mol2.bonds := by
  unfold MolGraphConvFeaturizer.featurize at h
  cases hc : chargeStep self env mol with
  | error e => rw [hc] at h; simp at h
  | ok p =>
    obtain ⟨m2, tr2⟩ := p
    rw [hc] at h
    simp only [Except.ok.injEq, Prod.mk.injEq] at h
    obtain ⟨hg, hm, ht⟩ := h
    subst hm
    exact ⟨tr2, rfl, hg.symm⟩

theorem featurize_ok_graph (self : MolGraphConvFeaturizer) (env : Env) (mol : Mol)
    (g : GraphData) (mol2 : Mol) (tr : List FeatEvent)
    (h : MolGraphConvFeaturizer.featurize self env mol = Except.ok (g, mol2, tr)) :
    g = buildGraph self.use_edges self.use_chirality self.use_partial_charge
      mol.atoms mol.bonds := by
  obtain ⟨tr2, hc, hg⟩ := featurize_ok_parts self env mol g mol2 tr h
  obtain ⟨ha, hb⟩ := chargeStep_preserves self env mol mol2 tr2 hc
  rw [hg, ha, hb]

theorem edge_src_length (bs : List Bond) : (edge_src bs).length = 2 * bs.length := by
  induction bs with
  | nil => rfl
  | cons b bs ih => simp [edge_src, ih]; omega

theorem edge_dest_length (bs : List Bond) : (edge_dest bs).length = 2 * bs.length := by
  induction bs with
  | nil => rfl
  | cons b bs ih => simp [edge_dest, ih]; omega

theorem edge_feature_list_length (bs : List Bond) :
    (edge_feature_list bs).length = 2 * bs.length := by
  induction bs with
  | nil => rfl
  | cons b bs ih => simp [edge_feature_list, ih]; omega

theorem edge_src_pair (bs : List Bond) : ∀ k b, bs[k]? = some b →
    (edge_src bs)[2 * k]? = some b.beginAtomIdx ∧
    (edge_src bs)[2 * k + 1]? = some b.endAtomIdx := by
  induction bs with
  | nil => intro k b h; simp at h
  | cons hd tl ih =>
    intro k b h
    cases k with
    | zero =>
      simp only [List.getElem?_cons_zero, Option.some.injEq] at h
      subst h
      constructor <;> simp [edge_src]
    | succ k =>
      have h2 : tl[k]? = some b := by simpa using h
      have hrec := ih k b h2
      have e1 : 2 * (k + 1) = 2 * k + 1 + 1 := by ring
      rw [e1]
      simpa [edge_src, List.getElem?_cons_succ] using hrec

theorem edge_dest_pair (bs : List Bond) : ∀ k b, bs[k]? = some b →
    (edge_dest bs)[2 * k]? = some b.endAtomIdx ∧
    (edge_dest bs)[2 * k + 1]? = some b.beginAtomIdx := by
  induction bs with
  | nil => intro k b h; simp at h
  | cons hd tl ih =>
    intro k b h
    cases k with
    | zero =>
      simp only [List.getElem?_cons_zero, Option.some.injEq] at h
      subst h
      constructor <;> simp [edge_dest]
    | succ k =>
      have h2 : tl[k]? = some b := by simpa using h
      have hrec := ih k b h2
      have e1 : 2 * (k + 1) = 2 * k + 1 + 1 := by ring
      rw [e1]
      simpa [edge_dest, List.getElem?_cons_succ] using hrec

theorem edge_feature_list_pair (bs : List Bond) : ∀ k b, bs[k]? = some b →
    (edge_feature_list bs)[2 * k]? = some (construct_bond_feature b) ∧
    (edge_feature_list bs)[2 * k + 1]? = some (construct_bond_feature b) := by
  induction bs with
  | nil => intro k b h; simp at h
  | cons hd tl ih =>
    intro k b h
    cases k with
    | zero =>
      simp only [List.getElem?_cons_zero, Option.some.injEq] at h
      subst h
      constructor <;> simp [edge_feature_list]
    | succ k =>
      have h2 : tl[k]? = some b := by simpa using h
      have hrec := ih k b h2
      have e1 : 2 * (k + 1) = 2 * k + 1 + 1 := by ring
      rw [e1]
      simpa [edge_feature_list, List.getElem?_cons_succ] using hrec

/-- Claim C1: for every molecule with B bonds, the sparse featurizer's edge_index has
exactly 2 rows (`[src, dest]`), each of length 2B, and for every bond k = (u, v) in
bond iteration order the directed edges (u, v) and (v, u) occupy the adjacent columns
2k and 2k + 1, forward then reverse. -/
theorem claim_edge_index_shape (self : MolGraphConvFeaturizer) (env : Env) (mol : Mol)
    (g : GraphData) (mol2 : Mol) (tr : List FeatEvent)
    (h : MolGraphConvFeaturizer.featurize self env mol = Except.ok (g, mol2, tr)) :
    g.edge_index.length = 2 ∧
    g.edge_index = [edge_src mol.bonds, edge_dest mol.bonds] ∧
    (edge_src mol.bonds).length = 2 * mol.bonds.length ∧
    (edge_dest mol.bonds).length = 2 * mol.bonds.length ∧
    (∀ k b, mol.bonds[k]? = some b →
      (edge_src mol.bonds)[2 * k]? = some b.beginAtomIdx ∧
      (edge_src mol.bonds)[2 * k + 1]? = some b.endAtomIdx ∧
      (edge_dest mol.bonds)[2 * k]? = some b.endAtomIdx ∧
      (edge_dest mol.bonds)[2 * k + 1]? = some b.beginAtomIdx) := by
  have hg := featurize_ok_graph self env mol g mol2 tr h
  subst hg
  refine ⟨rfl, rfl, edge_src_length _, edge_dest_length _, ?_⟩
  intro k b hk
  obtain ⟨s1, s2⟩ := edge_src_pair mol.bonds k b hk
  obtain ⟨d1, d2⟩ := edge_dest_pair mol.bonds k b hk
  exact ⟨s1, s2, d1, d2⟩

theorem claim_edge_index_shape_w :
    (edge_src mol0.bonds).length = 2 * mol0.bonds.length ∧
      (edge_src mol0.bonds)[0]? = some (bondS 0 1).beginAtomIdx ∧
      (edge_src mol0.bonds)[1]? = some (bondS 0 1).endAtomIdx ∧
      (edge_dest mol0.bonds)[0]? = some (bondS 0 1).endAtomIdx ∧
      (edge_dest mol0.bonds)[1]? = some (bondS 0 1).beginAtomIdx := by
  have hmain := claim_edge_index_shape S_edges env0 mol0
    (buildGraph S_edges.use_edges S_edges.use_chirality S_edges.use_partial_charge
      mol0.atoms mol0.bonds)
    mol0 ((List.range mol0.atoms.length).map FeatEvent.encodeAtom) rfl
  have hk := hmain.2.2.2.2 0 (bondS 0 1) rfl
  exact ⟨hmain.2.2.1, hk.1, hk.2.1, hk.2.2.1, hk.2.2.2⟩

/-- Claim C2: for every molecule the node-feature matrix has one row per atom, row i
being the feature vector of atom i, and every row has length 30 plus the chirality
block width (2) when use_chirality plus 1 when use_partial_charge. -/
theorem claim_node_features_shape (self : MolGraphConvFeaturizer) (env : Env) (mol : Mol)
    (g : GraphData) (mol2 : Mol) (tr : List FeatEvent)
    (h : MolGraphConvFeaturizer.featurize self env mol = Except.ok (g, mol2, tr)) :
    g.node_features.length = mol.atoms.length ∧
    (∀ (i : Nat) (a : Atom), mol.atoms[i]? = some a →
      g.node_features[i]? =
        some (construct_atom_feature a (construct_hydrogen_bonding_info mol.atoms)
          self.use_chirality self.use_partial_charge)) ∧
    (∀ row, row ∈ g.node_features →
      row.length = 30 + (if self.use_chirality then 2 else 0) +
        (if self.use_partial_charge then 1 else 0)) := by
  have hg := featurize_ok_graph self env mol g mol2 tr h
  subst hg
  refine ⟨by simp [buildGraph], ?_, ?_⟩
  · intro i a hi
    have hnf : (buildGraph self.use_edges self.use_chirality self.use_partial_charge
        mol.atoms mol.bonds).node_features =
        mol.atoms.map (fun atom =>
          construct_atom_feature atom (construct_hydrogen_bonding_info mol.atoms)
            self.use_chirality self.use_partial_charge) := rfl
    rw [hnf, List.getElem?_map, hi]
    rfl
  · intro row hrow
    simp only [buildGraph, List.mem_map] at hrow
    obtain ⟨a, _, rfl⟩ := hrow
    exact construct_atom_feature_length a _ _ _

theorem claim_node_features_shape_w :
    (buildGraph S_edges.use_edges S_edges.use_chirality S_edges.use_partial_charge
        mol0.atoms mol0.bonds).node_features.length = mol0.atoms.length ∧
      (buildGraph S_edges.use_edges S_edges.use_chirality S_edges.use_partial_charge
          mol0.atoms mol0.bonds).node_features[0]? =
        some (construct_atom_feature (atomC 0) (construct_hydrogen_bonding_info mol0.atoms)
          S_edges.use_chirality S_edges.use_partial_charge) ∧
      (construct_atom_feature (atomC 0) (construct_hydrogen_bonding_info mol0.atoms)
          S_edges.use_chirality S_edges.use_partial_charge).length =
        30 + (if S_edges.use_chirality then 2 else 0) +
          (if S_edges.use_partial_charge then 1 else 0) := by
  have hmain := claim_node_features_shape S_edges env0 mol0
    (buildGraph S_edges.use_edges S_edges.use_chirality S_edges.use_partial_charge
      mol0.atoms mol0.bonds)
    mol0 ((List.range mol0.atoms.length).map FeatEvent.encodeAtom) rfl
  exact ⟨hmain.1, hmain.2.1 0 (atomC 0) rfl, hmain.2.2 _ (by decide)⟩

/-- Claim C3: edge_features is absent when use_edges is false; when use_edges is true
it has 2B rows, rows 2k and 2k + 1 both being the feature vector of bond k. -/
theorem claim_edge_features_spec (self : MolGraphConvFeaturizer) (env : Env) (mol : Mol)
    (g : GraphData) (mol2 : Mol) (tr : List FeatEvent)
    (h : MolGraphConvFeaturizer.featurize self env mol = Except.ok (g, mol2, tr)) :
    (self.use_edges = false → g.edge_features = none) ∧
    (self.use_edges = true →
      g.edge_features = some (edge_feature_list mol.bonds) ∧
      (edge_feature_list mol.bonds).length = 2 * mol.bonds.length ∧
      (∀ k b, mol.bonds[k]? = some b →
        (edge_feature_list mol.bonds)[2 * k]? = some (construct_bond_feature b) ∧
        (edge_feature_list mol.bonds)[2 * k + 1]? = some (construct_bond_feature b))) := by
  have hg := featurize_ok_graph self env mol g mol2 tr h
  subst hg
  constructor
  · intro hue; simp [buildGraph, hue]
  · intro hue
    refine ⟨by simp [buildGraph, hue], edge_feature_list_length _, ?_⟩
    intro k b hk
    exact edge_feature_list_pair mol.bonds k b hk

theorem claim_edge_features_spec_w :
    (buildGraph S_edges.use_edges S_edges.use_chirality S_edges.use_partial_charge
        mol0.atoms mol0.bonds).edge_features = some (edge_feature_list mol0.bonds) ∧
      (edge_feature_list mol0.bonds).length = 2 * mol0.bonds.length ∧
      (edge_feature_list mol0.bonds)[0]? = some (construct_bond_feature (bondS 0 1)) ∧
      (edge_feature_list mol0.bonds)[1]? = some (construct_bond_feature (bondS 0 1)) := by
  have hmain := claim_edge_features_spec S_edges env0 mol0
    (buildGraph S_edges.use_edges S_edges.use_chirality S_edges.use_partial_charge
      mol0.atoms mol0.bonds)
    mol0 ((List.range mol0.atoms.length).map FeatEvent.encodeAtom) rfl
  have h2 := hmain.2 rfl
  have hk := h2.2.2 0 (bondS 0 1) rfl
  exact ⟨h2.1, h2.2.1, hk.1, hk.2⟩

theorem countGasteiger_map_encode (l : List Nat) :
    countGasteiger (l.map FeatEvent.encodeAtom) = 0 := by
  induction l with
  | nil => rfl
  | cons x xs ih => simp [countGasteiger, ih]

/-- Claim C4: with use_partial_charge set and charges not yet annotated, _featurize
computes Gasteiger charges for the whole molecule exactly once, and that computation
precedes every atom-encoding event; when rdkit.Chem.AllChem cannot be imported, the
call fails with ImportError (source lines 178-187). -/
theorem claim_partial_charge_effect (self : MolGraphConvFeaturizer) (env : Env)
    (mol : Mol) (h1 : self.use_partial_charge = true)
    (h2 : mol.gasteigerAnnotated = false) :
    (env.allChemAvailable = true →
      MolGraphConvFeaturizer.featurize self env mol =
        Except.ok (buildGraph self.use_edges self.use_chirality self.use_partial_charge
            mol.atoms mol.bonds,
          { mol with gasteigerAnnotated := true },
          FeatEvent.computeGasteiger ::
            (List.range mol.atoms.length).map FeatEvent.encodeAtom) ∧
      countGasteiger
        (FeatEvent.computeGasteiger ::
          (List.range mol.atoms.length).map FeatEvent.encodeAtom) = 1 ∧
      (∀ (pre post : List FeatEvent) (i : Nat),
        FeatEvent.computeGasteiger ::
            (List.range mol.atoms.length).map FeatEvent.encodeAtom =
          pre ++ FeatEvent.encodeAtom i :: post →
        FeatEvent.computeGasteiger ∈ pre)) ∧
    (env.allChemAvailable = false →
      MolGraphConvFeaturizer.featurize self env mol = Except.error PyErr.importError) := by
  constructor
  · intro ha
    refine ⟨?_, ?_, ?_⟩
    · simp [MolGraphConvFeaturizer.featurize, chargeStep, h1, h2, ha]
    · simp [countGasteiger, countGasteiger_map_encode]
    · intro pre post i hEq
      cases pre with
      | nil =>
        rw [List.nil_append] at hEq
        injection hEq with hHead hTail
        exact FeatEvent.noConfusion hHead
      | cons p ps =>
        rw [List.cons_append] at hEq
        injection hEq with hHead hTail
        rw [hHead]
        exact List.mem_cons_self _ _
  · intro ha
    simp [MolGraphConvFeaturizer.featurize, chargeStep, h1, h2, ha]

theorem claim_partial_charge_effect_w :
    MolGraphConvFeaturizer.featurize S_pc env0 mol0 =
      Except.ok (buildGraph S_pc.use_edges S_pc.use_chirality S_pc.use_partial_charge
          mol0.atoms mol0.bonds,
        { mol0 with gasteigerAnnotated := true },
        FeatEvent.computeGasteiger ::
          (List.range mol0.atoms.length).map FeatEvent.encodeAtom) :=
  ((claim_partial_charge_effect S_pc env0 mol0 rfl rfl).1 rfl).1

theorem chargeStep_second (self : MolGraphConvFeaturizer) (env : Env) (mol m1 : Mol)
    (tr : List FeatEvent) (h : chargeStep self env mol = Except.ok (m1, tr)) :
    ∃ (m2 : Mol) (tr2 : List FeatEvent),
      chargeStep self env m1 = Except.ok (m2, tr2) ∧
        m2.atoms = m1.atoms ∧ m2.bonds = m1.bonds := by
  cases hpc : self.use_partial_charge with
  | false => exact ⟨m1, [], by simp [chargeStep, hpc], rfl, rfl⟩
  | true =>
    simp only [chargeStep, hpc, if_true] at h
    split at h
    · rename_i hcond
      simp only [Except.ok.injEq, Prod.mk.injEq] at h
      obtain ⟨hm, _⟩ := h
      subst hm
      exact ⟨mol, [], by simp [chargeStep, hpc, hcond], rfl, rfl⟩
    · rename_i hcond
      split at h
      · rename_i henv
        simp only [Except.ok.injEq, Prod.mk.injEq] at h
        obtain ⟨hm, _⟩ := h
        subst hm
        by_cases hc2 : mol.atoms.isEmpty = true
        · exact ⟨{ mol with gasteigerAnnotated := true }, [FeatEvent.computeGasteiger],
            by simp [chargeStep, hpc, hc2, henv], rfl, rfl⟩
        · rw [Bool.not_eq_true] at hc2
          exact ⟨{ mol with gasteigerAnnotated := true }, [],
            by simp [chargeStep, hpc, hc2], rfl, rfl⟩
      · simp at h

/-- Claim C9: featurization is deterministic. A second _featurize call with the same
configuration and environment, run on the molecule state the first call left behind
(the Gasteiger annotation is the only in-place mutation), produces the same
GraphData, entry for entry. -/
theorem claim_featurize_deterministic (self : MolGraphConvFeaturizer) (env : Env)
    (mol : Mol) (g1 : GraphData) (m1 : Mol) (t1 : List FeatEvent)
    (h : MolGraphConvFeaturizer.featurize self env mol = Except.ok (g1, m1, t1)) :
    (MolGraphConvFeaturizer.featurize self env m1).map (fun x => x.1) =
      Except.ok g1 := by
  obtain ⟨tr2, hcs, hg⟩ := featurize_ok_parts self env mol g1 m1 t1 h
  obtain ⟨m2, tr3, hcs2, ha, hb⟩ := chargeStep_second self env mol m1 tr2 hcs
  unfold MolGraphConvFeaturizer.featurize
  rw [hcs2]
  show Except.ok (buildGraph self.use_edges self.use_chirality self.use_partial_charge
    m2.atoms m2.bonds) = Except.ok g1
  rw [ha, hb]
  exact congrArg Except.ok hg.symm

theorem claim_featurize_deterministic_w :
    (MolGraphConvFeaturizer.featurize S_pc env0
          { mol0 with gasteigerAnnotated := true }).map (fun x => x.1) =
      Except.ok (buildGraph S_pc.use_edges S_pc.use_chirality S_pc.use_partial_charge
        mol0.atoms mol0.bonds) :=
  claim_featurize_deterministic S_pc env0 mol0
    (buildGraph S_pc.use_edges S_pc.use_chirality S_pc.use_partial_charge
      mol0.atoms mol0.bonds)
    { mol0 with gasteigerAnnotated := true }
    (FeatEvent.computeGasteiger :: (List.range mol0.atoms.length).map FeatEvent.encodeAtom)
    rfl

theorem pagtn_bond_featurizer_length (b : Bond) : (pagtn_bond_featurizer b).length = 6 := by
  simp [pagtn_bond_featurizer, dgl_one_hot_encoding]

theorem pathBlocksFrom_length (pbs : List (Option Bond)) :
    ∀ (idxs : List Nat) (blocks : List Int),
      pathBlocksFrom pbs idxs = Except.ok blocks → blocks.length = 6 * idxs.length := by
  intro idxs
  induction idxs with
  | nil =>
    intro blocks h
    simp only [pathBlocksFrom, Except.ok.injEq] at h
    subst h
    rfl
  | cons i rest ih =>
    intro blocks h
    unfold pathBlocksFrom at h
    split at h
    · rename_i b heq
      split at h
      · rename_i tail ht
        simp only [Except.ok.injEq] at h
        subst h
        simp only [List.length_append, pagtn_bond_featurizer_length, List.length_cons,
          ih tail ht]
        ring
      · simp at h
    · simp at h
    · rename_i heq
      split at h
      · rename_i tail ht
        simp only [Except.ok.injEq] at h
        subst h
        simp only [List.length_append, List.length_replicate, List.length_cons,
          ih tail ht]
        ring
      · simp at h

theorem drop_take_middle (a b c : List Int) :
    ((a ++ (b ++ c)).drop a.length).take b.length = b := by
  rw [List.drop_left, List.take_left]

/-- Claim C7 (amended): for every successfully assembled pair vector, the slice
holding the path-length position indicator (right after the 6 * max_length path-slot
entries) is a one-hot vector of length max_length + 2 whose set slot is the number of
atoms on the path when that number is below max_length, and max_length + 1 otherwise
(the source clamps whenever path_length + 1 > max_length, so a path length equal to
max_length is also sent to the overflow slot, unlike min(path length, max_length + 1)). -/
theorem claim_position_indicator (F : PAGTNFeaturizer) (mol : Mol)
    (path_atoms : List Nat) (ring_info : List (Nat × Bool)) (v : List Int)
    (h : bond_features_val F mol path_atoms ring_info = Except.ok v) :
    (v.drop (6 * F.max_length)).take (F.max_length + 2) =
      one_hot_at (F.max_length + 2)
        (if path_atoms.length < F.max_length then path_atoms.length
         else F.max_length + 1) := by
  unfold bond_features_val at h
  cases hb : pathBlocks F.max_length (pathBonds mol path_atoms) with
  | error e => rw [hb] at h; simp at h
  | ok blocks =>
    rw [hb] at h
    simp only [Except.ok.injEq] at h
    subst h
    have hlen : blocks.length = 6 * F.max_length := by
      have hlen0 := pathBlocksFrom_length (pathBonds mol path_atoms)
        (List.range F.max_length) blocks hb
      simpa using hlen0
    have hpos : (position_feature F.max_length path_atoms.length).length =
        F.max_length + 2 := by
      simp [position_feature, one_hot_at]
    have key := drop_take_middle blocks
      (position_feature F.max_length path_atoms.length)
      (ring_block RING_TYPES ring_info)
    rw [hlen, hpos] at key
    rw [List.append_assoc, key]
    unfold position_feature
    by_cases hn : path_atoms.length < F.max_length
    · have hord : ¬(path_atoms.length + 1 > F.max_length) := by omega
      simp [hn, hord]
    · have hord : path_atoms.length + 1 > F.max_length := by omega
      simp [hn, hord]

theorem claim_position_indicator_w :
    (v0.drop (6 * F5.max_length)).take (F5.max_length + 2) =
      one_hot_at (F5.max_length + 2)
        (if ([0, 1] : List Nat).length < F5.max_length then ([0, 1] : List Nat).length
         else F5.max_length + 1) :=
  claim_position_indicator F5 mol0 [0, 1] [] v0 rfl

/-- Claim C7 counterexample: on the five-carbon chain's shortest path [0,1,2,3,4]
(path length 5, max_length 5) the emitted position slice sets slot 6, whereas the
claim's bucket index min(path length, max_length + 1) = 5 — and under a bonds-count
reading of "path length", min(4, 6) = 4 — so the claim's one-hot differs from the
emitted one under either reading. -/
theorem claim_position_indicator_cex :
    (bond_features_val F5 mol5 [0, 1, 2, 3, 4] []).map (fun v => (v.drop 30).take 7) =
        Except.ok [0, 0, 0, 0, 0, 0, 1] ∧
      ([0, 0, 0, 0, 0, 0, 1] : List Int) ≠ one_hot_at 7 (min 5 (5 + 1)) ∧
      ([0, 0, 0, 0, 0, 0, 1] : List Int) ≠ one_hot_at 7 (min 4 (5 + 1)) := by
  exact ⟨rfl, by decide, by decide⟩

/-- Claim C5: PAGTNBondFeaturizer as written raises NameError on every molecule (the
name `utils` is unbound at line 330), shown here on the disconnected three-atom
molecule, before any pair vector is emitted — so the claim's "does not raise" fails;
the loop body itself, given the intended shortest-path dictionaries, does give the
no-path pair (0, 2) the all-zero vector of width 7 * max_length + 7 = 42, exactly as
the claim describes. -/
theorem claim_no_path_zero_vector :
    PAGTNBondFeaturizer_run F5 molDisc = Except.error PyErr.nameError ∧
      pagtn_pair_feature F5 molDisc pathsDisc ringsDisc 0 2 =
        Except.ok (List.replicate (7 * F5.max_length + 7) 0) ∧
      7 * F5.max_length + 7 = 42 := by
  exact ⟨rfl, rfl, rfl⟩

/-- Claim C6: the constructor argument is ignored — PAGTNFeaturizer.init 3 stores
max_length 5 (source line 256 assigns the literal 5), so the per-pair feature width
is 7 * 5 + 7 = 42, not 7 * 3 + 7 = 28 as the claim would require. -/
theorem claim_max_length_ignored :
    (PAGTNFeaturizer.init 3).max_length = 5 ∧
      (PAGTNFeaturizer.init 3).max_length ≠ 3 ∧
      (bond_features_val (PAGTNFeaturizer.init 3) mol0 [0, 1] []).map List.length =
        Except.ok 42 ∧
      (42 : Nat) ≠ 7 * 3 + 7 := by
  exact ⟨rfl, by decide, rfl, by decide⟩

/-- Claim C8: bond_features as written raises NameError when it reaches the ring
block — `one_hot_encoding` is imported only inside __init__ and is unbound at method
scope — shown here on the two-atom molecule with path [0, 1] and empty ring info;
under the intended dgllife semantics the no-shared-ring block is the leading false
flag followed by an all-false slot per RING_TYPES category, i.e. [0, 0, 0, 0, 0],
which is also the final five entries of the intended pair vector. -/
theorem claim_no_ring_block :
    bond_features_run F5 mol0 [0, 1] [] = Except.error PyErr.nameError ∧
      ring_block RING_TYPES [] = [0, 0, 0, 0, 0] ∧
      (bond_features_val F5 mol0 [0, 1] []).map (fun v => v.drop 37) =
        Except.ok [0, 0, 0, 0, 0] := by
  exact ⟨rfl, rfl, rfl⟩

/-- Claim C10: for every featurizer state and molecule, PAGTNFeaturizer._featurize
raises and never returns a GraphData: the bound call self.PAGTNAtomFeaturizer(mol)
passes two arguments (self and mol) to the one-parameter function declared without
self, raising TypeError at the call (and the body's references to `self` and to
helpers imported only inside __init__ are unbound in any case). -/
theorem claim_pagtn_featurize_raises (F : PAGTNFeaturizer) (mol : Mol) :
    pagtn_featurize F mol = Except.error PyErr.typeError := rfl

end DC
